import Mathlib

/-!
Verification of the template-to-message-part pipeline of go-mail
(file msg_template.go).

The eight public operations (SetBodyTextTemplate, SetBodyHTMLTemplate,
AddAlternativeTextTemplate, AddAlternativeHTMLTemplate, AttachTextTemplate,
AttachHTMLTemplate, EmbedTextTemplate, EmbedHTMLTemplate) and the two helpers
fileFromTextTemplate / fileFromHTMLTemplate are translated directly from the
source.  External collaborators that the source calls but that live outside
this file's source scope (SetBodyWriter, AddAlternativeWriter, appendFile,
fileFromReader, writeFuncFromBuffer, the error-message constants, and the
templating engine itself) are modelled from the specification, each marked
"Modelled from the spec" in its doc comment.

Go conventions mapped to Lean:
  - a nil template pointer becomes Option.none;
  - a Go error value becomes a GoError, with fmt.Errorf wrapping via "%w"
    becoming GoError.wrap (errors.Is reachability is the errorsIs function);
  - a method that mutates its receiver and returns an error becomes a function
    returning the new Msg together with an Option GoError;
  - every operation result additionally carries the number of templating-engine
    Execute invocations it performed (the "spy engine" counter that the spec's
    testable properties ask for); the counter increments exactly at the points
    where the source calls tpl.Execute.
-/

namespace GoMail

/-- Errors as the Go code produces them: a fresh error with a message, or an
error wrapping an underlying cause with an added context note (the Go
fmt.Errorf with a "%w" verb). -/
inductive GoError where
  | new (msg : String)
  | wrap (context : String) (cause : GoError)
deriving Repr, DecidableEq

/-- Unwrapping one layer of an error chain (Go errors.Unwrap). -/
def GoError.unwrap : GoError → Option GoError
  | .new _ => none
  | .wrap _ cause => some cause

/-- Reachability of a target error through the wrap chain (Go errors.Is with
plain equality as the match). -/
def errorsIs (e target : GoError) : Bool :=
  if e = target then true
  else
    match e with
    | .new _ => false
    | .wrap _ cause => errorsIs cause target

/-- Modelled from the spec: the message of the TemplateMissing failure, the
errTplPointerNil constant the source references. -/
def errTplPointerNil : String := "template pointer is nil"

/-- Modelled from the spec: the context note of the TemplateExecutionFailed
failure.  The source's errTplExecuteFailed constant is the corresponding Go
format string carrying the engine failure as its "%w" cause. -/
def errTplExecuteFailed : String := "failed to execute template"

/-- Data values handed to template execution, modelled as a finite map from
field names to string values (the shape the templating engine alone
interprets). -/
abbrev Data := List (String × String)

/-- Modelled from the spec: one element of a template body, either a literal
run of text or a reference to a field of the data value. -/
inductive TplElem where
  | lit (s : String)
  | field (name : String)
deriving Repr, DecidableEq

/-- Modelled from the spec: the Raw engine variant (Go text/template).  The
template is evaluated left to right into an output buffer; a field reference
missing from the data value fails evaluation (the strict mode the spec
mentions), and field values are written without any sanitization. -/
def renderTextFrom (acc : String) (d : Data) : List TplElem → Except GoError String
  | [] => .ok acc
  | .lit s :: rest => renderTextFrom (acc ++ s) d rest
  | .field n :: rest =>
    match d.lookup n with
    | none => .error (GoError.new ("map has no entry for key " ++ n))
    | some v => renderTextFrom (acc ++ v) d rest

/-- Escaping of one character against injection into HTML markup, following
the Go html/template replacement table. -/
def htmlEscapeChar (c : Char) : String :=
  if c = '<' then "&lt;"
  else if c = '>' then "&gt;"
  else if c = '&' then "&amp;"
  else if c = '\'' then "&#39;"
  else if c = '"' then "&#34;"
  else String.singleton c

/-- Escaping of a whole string against injection into HTML markup. -/
def htmlEscape (s : String) : String :=
  String.join (s.toList.map htmlEscapeChar)

/-- Modelled from the spec: the Escaping engine variant (Go html/template).
Identical to the Raw variant except that every field value is sanitized with
htmlEscape before being written. -/
def renderHTMLFrom (acc : String) (d : Data) : List TplElem → Except GoError String
  | [] => .ok acc
  | .lit s :: rest => renderHTMLFrom (acc ++ s) d rest
  | .field n :: rest =>
    match d.lookup n with
    | none => .error (GoError.new ("map has no entry for key " ++ n))
    | some v => renderHTMLFrom (acc ++ htmlEscape v) d rest

/-- A Go text/template.Template: an opaque engine capability that, given a
data value, either produces the rendered output or fails. -/
structure TextTemplate where
  Execute : Data → Except GoError String

/-- A Go html/template.Template: same capability shape as TextTemplate, but
nominally distinct, as the two Go pointer types are. -/
structure HTMLTemplate where
  Execute : Data → Except GoError String

/-- A text/template built by the Raw engine from a template body. -/
def TextTemplate.ofElems (elems : List TplElem) : TextTemplate :=
  { Execute := fun d => renderTextFrom "" d elems }

/-- An html/template built by the Escaping engine from a template body. -/
def HTMLTemplate.ofElems (elems : List TplElem) : HTMLTemplate :=
  { Execute := fun d => renderHTMLFrom "" d elems }

/-- Modelled from the spec: the Content Producer.  An output sink is the
string of bytes written to it so far; a write function appends its bytes and
reports how many bytes it wrote, as the source's writeFuncFromBuffer closure
over the rendered buffer does. -/
def writeFuncFromBuffer (buffer : String) : String → String × Nat :=
  fun sink => (sink ++ buffer, buffer.length)

/-- A body part of the message: a declared content type together with the
Content Producer that writes the part's bytes. -/
structure Part where
  contentType : String
  writer : String → String × Nat

/-- An option customizing a single part, opaque to this core. -/
abbrev PartOption := Part → Part

/-- A File destined for the attachment or embed collection: a declared name,
a content type, and the Content Producer for its bytes. -/
structure File where
  name : String
  contentType : String
  writer : String → String × Nat

/-- An option customizing a single file, opaque to this core. -/
abbrev FileOption := File → File

/-- Application of the caller's part options, in order. -/
def applyPartOptions (opts : List PartOption) (p : Part) : Part :=
  opts.foldl (fun q o => o q) p

/-- Application of the caller's file options, in order. -/
def applyFileOptions (opts : List FileOption) (f : File) : File :=
  opts.foldl (fun g o => o g) f

/-- The content type "text/plain" (the source's TypeTextPlain). -/
def TypeTextPlain : String := "text/plain"

/-- The content type "text/html" (the source's TypeTextHTML). -/
def TypeTextHTML : String := "text/html"

/-- The owning message, modelled from the spec's Document data model: a
single primary body slot, the ordered alternative-body sequence, the ordered
attachment sequence, and the ordered embed sequence. -/
structure Msg where
  body : Option Part
  alternatives : List Part
  attachments : List File
  embeds : List File

/-- Modelled from the spec: the Document capability setPrimaryBody.  Builds a
part under the declared content type, applies the caller's options to it, and
replaces the single primary body slot (last write wins). -/
def Msg.SetBodyWriter (m : Msg) (contentType : String) (writeFunc : String → String × Nat)
    (opts : List PartOption) : Msg :=
  { m with body := some (applyPartOptions opts { contentType := contentType, writer := writeFunc }) }

/-- Modelled from the spec: the Document capability appendAlternative.
Builds a part under the declared content type, applies the caller's options,
and appends it at the tail of the alternative-body sequence. -/
def Msg.AddAlternativeWriter (m : Msg) (contentType : String) (writeFunc : String → String × Nat)
    (opts : List PartOption) : Msg :=
  { m with alternatives :=
      m.alternatives ++ [applyPartOptions opts { contentType := contentType, writer := writeFunc }] }

/-- Modelled from the spec: the Document capability that appends a File at
the tail of a file collection after applying the caller's file options. -/
def appendFile (files : List File) (file : File) (opts : List FileOption) : List File :=
  files ++ [applyFileOptions opts file]

/-- Modelled from the spec: the external File-construction capability
fileFromByteSource, which builds a File from a name and the rendered bytes
and is allowed to fail (the spec's AttachmentConstructionFailed case).  The
operations take it as a parameter since it is an external collaborator. -/
abbrev FileFromReader := String → String → Except GoError File

/-- Result of one public operation: the message after the call (the Go
receiver), the returned error (none on success), and the spy counter of
templating-engine Execute invocations performed during the call. -/
structure OpResult where
  msg : Msg
  err : Option GoError
  engineCalls : Nat

/-- Result of the file-building helpers: the built File or the failure, plus
the spy counter of engine Execute invocations. -/
structure FileResult where
  res : Except GoError File
  engineCalls : Nat

/-- Translation of Msg.SetBodyTextTemplate (msg_template.go lines 35-46): a
nil template fails with errTplPointerNil; a failed Execute is wrapped with
errTplExecuteFailed; on success the buffer is wrapped into a write function
and installed as the primary body under text/plain. -/
def Msg.SetBodyTextTemplate (m : Msg) (tpl : Option TextTemplate) (data : Data)
    (opts : List PartOption) : OpResult :=
  match tpl with
  | none => { msg := m, err := some (GoError.new errTplPointerNil), engineCalls := 0 }
  | some t =>
    match t.Execute data with
    | .error e =>
      { msg := m, err := some (GoError.wrap errTplExecuteFailed e), engineCalls := 1 }
    | .ok buffer =>
      { msg := m.SetBodyWriter TypeTextPlain (writeFuncFromBuffer buffer) opts,
        err := none, engineCalls := 1 }

/-- Translation of Msg.SetBodyHTMLTemplate (msg_template.go lines 66-77):
identical pipeline, html/template engine, body installed under text/html. -/
def Msg.SetBodyHTMLTemplate (m : Msg) (tpl : Option HTMLTemplate) (data : Data)
    (opts : List PartOption) : OpResult :=
  match tpl with
  | none => { msg := m, err := some (GoError.new errTplPointerNil), engineCalls := 0 }
  | some t =>
    match t.Execute data with
    | .error e =>
      { msg := m, err := some (GoError.wrap errTplExecuteFailed e), engineCalls := 1 }
    | .ok buffer =>
      { msg := m.SetBodyWriter TypeTextHTML (writeFuncFromBuffer buffer) opts,
        err := none, engineCalls := 1 }

/-- Translation of Msg.AddAlternativeTextTemplate (msg_template.go lines
96-107): identical pipeline, result appended to the alternatives under
text/plain. -/
def Msg.AddAlternativeTextTemplate (m : Msg) (tpl : Option TextTemplate) (data : Data)
    (opts : List PartOption) : OpResult :=
  match tpl with
  | none => { msg := m, err := some (GoError.new errTplPointerNil), engineCalls := 0 }
  | some t =>
    match t.Execute data with
    | .error e =>
      { msg := m, err := some (GoError.wrap errTplExecuteFailed e), engineCalls := 1 }
    | .ok buffer =>
      { msg := m.AddAlternativeWriter TypeTextPlain (writeFuncFromBuffer buffer) opts,
        err := none, engineCalls := 1 }

/-- Translation of Msg.AddAlternativeHTMLTemplate (msg_template.go lines
126-137): identical pipeline, result appended to the alternatives under
text/html. -/
def Msg.AddAlternativeHTMLTemplate (m : Msg) (tpl : Option HTMLTemplate) (data : Data)
    (opts : List PartOption) : OpResult :=
  match tpl with
  | none => { msg := m, err := some (GoError.new errTplPointerNil), engineCalls := 0 }
  | some t =>
    match t.Execute data with
    | .error e =>
      { msg := m, err := some (GoError.wrap errTplExecuteFailed e), engineCalls := 1 }
    | .ok buffer =>
      { msg := m.AddAlternativeWriter TypeTextHTML (writeFuncFromBuffer buffer) opts,
        err := none, engineCalls := 1 }

/-- Translation of fileFromTextTemplate (msg_template.go lines 268-277): a
nil template fails with errTplPointerNil; a failed Execute is wrapped with
errTplExecuteFailed; on success the buffer is handed to fileFromReader. -/
def fileFromTextTemplate (fileFromReader : FileFromReader) (name : String)
    (tpl : Option TextTemplate) (data : Data) : FileResult :=
  match tpl with
  | none => { res := .error (GoError.new errTplPointerNil), engineCalls := 0 }
  | some t =>
    match t.Execute data with
    | .error e =>
      { res := .error (GoError.wrap errTplExecuteFailed e), engineCalls := 1 }
    | .ok buffer => { res := fileFromReader name buffer, engineCalls := 1 }

/-- Translation of fileFromHTMLTemplate (msg_template.go lines 296-305):
identical to fileFromTextTemplate with the html/template engine. -/
def fileFromHTMLTemplate (fileFromReader : FileFromReader) (name : String)
    (tpl : Option HTMLTemplate) (data : Data) : FileResult :=
  match tpl with
  | none => { res := .error (GoError.new errTplPointerNil), engineCalls := 0 }
  | some t =>
    match t.Execute data with
    | .error e =>
      { res := .error (GoError.wrap errTplExecuteFailed e), engineCalls := 1 }
    | .ok buffer => { res := fileFromReader name buffer, engineCalls := 1 }

/-- Translation of Msg.AttachTextTemplate (msg_template.go lines 156-165): a
failure of fileFromTextTemplate is wrapped with the context "failed to attach
template"; on success the File is appended to the attachments. -/
def Msg.AttachTextTemplate (m : Msg) (fileFromReader : FileFromReader) (name : String)
    (tpl : Option TextTemplate) (data : Data) (opts : List FileOption) : OpResult :=
  match fileFromTextTemplate fileFromReader name tpl data with
  | ⟨.error e, n⟩ =>
    { msg := m, err := some (GoError.wrap "failed to attach template" e), engineCalls := n }
  | ⟨.ok file, n⟩ =>
    { msg := { m with attachments := appendFile m.attachments file opts },
      err := none, engineCalls := n }

/-- Translation of Msg.AttachHTMLTemplate (msg_template.go lines 184-193):
same as AttachTextTemplate with fileFromHTMLTemplate. -/
def Msg.AttachHTMLTemplate (m : Msg) (fileFromReader : FileFromReader) (name : String)
    (tpl : Option HTMLTemplate) (data : Data) (opts : List FileOption) : OpResult :=
  match fileFromHTMLTemplate fileFromReader name tpl data with
  | ⟨.error e, n⟩ =>
    { msg := m, err := some (GoError.wrap "failed to attach template" e), engineCalls := n }
  | ⟨.ok file, n⟩ =>
    { msg := { m with attachments := appendFile m.attachments file opts },
      err := none, engineCalls := n }

/-- Translation of Msg.EmbedTextTemplate (msg_template.go lines 212-221): a
failure of fileFromTextTemplate is wrapped with the context "failed to embed
template"; on success the File is appended to the embeds. -/
def Msg.EmbedTextTemplate (m : Msg) (fileFromReader : FileFromReader) (name : String)
    (tpl : Option TextTemplate) (data : Data) (opts : List FileOption) : OpResult :=
  match fileFromTextTemplate fileFromReader name tpl data with
  | ⟨.error e, n⟩ =>
    { msg := m, err := some (GoError.wrap "failed to embed template" e), engineCalls := n }
  | ⟨.ok file, n⟩ =>
    { msg := { m with embeds := appendFile m.embeds file opts },
      err := none, engineCalls := n }

/-- Translation of Msg.EmbedHTMLTemplate (msg_template.go lines 240-249):
same as EmbedTextTemplate with fileFromHTMLTemplate. -/
def Msg.EmbedHTMLTemplate (m : Msg) (fileFromReader : FileFromReader) (name : String)
    (tpl : Option HTMLTemplate) (data : Data) (opts : List FileOption) : OpResult :=
  match fileFromHTMLTemplate fileFromReader name tpl data with
  | ⟨.error e, n⟩ =>
    { msg := m, err := some (GoError.wrap "failed to embed template" e), engineCalls := n }
  | ⟨.ok file, n⟩ =>
    { msg := { m with embeds := appendFile m.embeds file opts },
      err := none, engineCalls := n }

/-- A concrete body part used to exercise the theorems. -/
def partW : Part := { contentType := TypeTextPlain, writer := writeFuncFromBuffer "old" }

/-- A concrete file used to exercise the theorems. -/
def fileW : File :=
  { name := "f0", contentType := "application/octet-stream", writer := writeFuncFromBuffer "f0c" }

/-- A concrete message with every collection nonempty. -/
def msgW : Msg :=
  { body := some partW, alternatives := [partW], attachments := [fileW], embeds := [fileW] }

/-- A concrete data value with a plain field and a markup-significant field. -/
def dataW : Data := [("Name", "World"), ("X", "<script>")]

/-- A text template whose evaluation fails on dataW (missing field). -/
def tplFailT : TextTemplate := TextTemplate.ofElems [TplElem.field "Missing"]

/-- An html template whose evaluation fails on dataW (missing field). -/
def tplFailH : HTMLTemplate := HTMLTemplate.ofElems [TplElem.field "Missing"]

/-- A text template whose evaluation always succeeds with output "ok". -/
def tplOkT : TextTemplate := TextTemplate.ofElems [TplElem.lit "ok"]

/-- An html template whose evaluation always succeeds with output "ok". -/
def tplOkH : HTMLTemplate := HTMLTemplate.ofElems [TplElem.lit "ok"]

/-- A file-construction capability that always succeeds, wrapping the
rendered bytes into a write function. -/
def ffrOk : FileFromReader := fun name buffer =>
  .ok { name := name, contentType := "application/octet-stream",
        writer := writeFuncFromBuffer buffer }

/-- A file-construction capability that always fails, exercising the
post-render failure point of the attach and embed operations. -/
def ffrFail : FileFromReader := fun _ _ => .error (GoError.new "file construction failed")

/-- A second text template, with output "second", distinct from tplOkT. -/
def tplOk2T : TextTemplate := TextTemplate.ofElems [TplElem.lit "second"]

/-- The concrete scenario of the spec: the text template "Hello {{.Name}}"
evaluated with data mapping Name to World, set as the body of an empty
message. -/
def helloResult : OpResult :=
  Msg.SetBodyTextTemplate
    { body := none, alternatives := [], attachments := [], embeds := [] }
    (some (TextTemplate.ofElems [TplElem.lit "Hello ", TplElem.field "Name"]))
    [("Name", "World")] []

theorem errorsIs_self (e : GoError) : errorsIs e e = true := by
  rw [errorsIs.eq_def]
  simp

theorem errorsIs_wrap (c : String) (e : GoError) :
    errorsIs (GoError.wrap c e) e = true := by
  rw [errorsIs.eq_def]
  split
  · rfl
  · exact errorsIs_self e

/-- C1: for every one of the eight public template operations and every
input on which the operation returns a failure, the message is identical
before and after the call: every collection (primary body slot, alternative
sequence, attachment sequence, embed sequence) is untouched, because the
message is mutated only after the full render-and-wrap pipeline succeeds. -/
theorem template_ops_atomic_on_failure (m : Msg) (tplT : Option TextTemplate)
    (tplH : Option HTMLTemplate) (d : Data) (popts : List PartOption)
    (fopts : List FileOption) (ffr : FileFromReader) (nm : String) :
    ((m.SetBodyTextTemplate tplT d popts).err.isSome →
      (m.SetBodyTextTemplate tplT d popts).msg = m) ∧
    ((m.SetBodyHTMLTemplate tplH d popts).err.isSome →
      (m.SetBodyHTMLTemplate tplH d popts).msg = m) ∧
    ((m.AddAlternativeTextTemplate tplT d popts).err.isSome →
      (m.AddAlternativeTextTemplate tplT d popts).msg = m) ∧
    ((m.AddAlternativeHTMLTemplate tplH d popts).err.isSome →
      (m.AddAlternativeHTMLTemplate tplH d popts).msg = m) ∧
    ((m.AttachTextTemplate ffr nm tplT d fopts).err.isSome →
      (m.AttachTextTemplate ffr nm tplT d fopts).msg = m) ∧
    ((m.AttachHTMLTemplate ffr nm tplH d fopts).err.isSome →
      (m.AttachHTMLTemplate ffr nm tplH d fopts).msg = m) ∧
    ((m.EmbedTextTemplate ffr nm tplT d fopts).err.isSome →
      (m.EmbedTextTemplate ffr nm tplT d fopts).msg = m) ∧
    ((m.EmbedHTMLTemplate ffr nm tplH d fopts).err.isSome →
      (m.EmbedHTMLTemplate ffr nm tplH d fopts).msg = m) := by
  refine ⟨?_, ?_, ?_, ?_, ?_, ?_, ?_, ?_⟩
  · intro h
    rcases tplT with _ | t
    · rfl
    · rcases hE : t.Execute d with e | buf <;>
        simp [Msg.SetBodyTextTemplate, hE] at h ⊢
  · intro h
    rcases tplH with _ | t
    · rfl
    · rcases hE : t.Execute d with e | buf <;>
        simp [Msg.SetBodyHTMLTemplate, hE] at h ⊢
  · intro h
    rcases tplT with _ | t
    · rfl
    · rcases hE : t.Execute d with e | buf <;>
        simp [Msg.AddAlternativeTextTemplate, hE] at h ⊢
  · intro h
    rcases tplH with _ | t
    · rfl
    · rcases hE : t.Execute d with e | buf <;>
        simp [Msg.AddAlternativeHTMLTemplate, hE] at h ⊢
  · intro h
    rcases hF : fileFromTextTemplate ffr nm tplT d with ⟨res, n⟩
    rcases res with e | f <;>
      simp [Msg.AttachTextTemplate, hF] at h ⊢
  · intro h
    rcases hF : fileFromHTMLTemplate ffr nm tplH d with ⟨res, n⟩
    rcases res with e | f <;>
      simp [Msg.AttachHTMLTemplate, hF] at h ⊢
  · intro h
    rcases hF : fileFromTextTemplate ffr nm tplT d with ⟨res, n⟩
    rcases res with e | f <;>
      simp [Msg.EmbedTextTemplate, hF] at h ⊢
  · intro h
    rcases hF : fileFromHTMLTemplate ffr nm tplH d with ⟨res, n⟩
    rcases res with e | f <;>
      simp [Msg.EmbedHTMLTemplate, hF] at h ⊢

/-- Witness for C1, at the nil template, where all eight operations fail. -/
theorem template_ops_atomic_on_failure_witness :
    (msgW.SetBodyTextTemplate none dataW []).msg = msgW ∧
    (msgW.SetBodyHTMLTemplate none dataW []).msg = msgW ∧
    (msgW.AddAlternativeTextTemplate none dataW []).msg = msgW ∧
    (msgW.AddAlternativeHTMLTemplate none dataW []).msg = msgW ∧
    (msgW.AttachTextTemplate ffrOk "a.txt" none dataW []).msg = msgW ∧
    (msgW.AttachHTMLTemplate ffrOk "a.html" none dataW []).msg = msgW ∧
    (msgW.EmbedTextTemplate ffrOk "e.txt" none dataW []).msg = msgW ∧
    (msgW.EmbedHTMLTemplate ffrOk "e.html" none dataW []).msg = msgW := by
  have H := template_ops_atomic_on_failure msgW none none dataW [] [] ffrOk "a.txt"
  have H2 := template_ops_atomic_on_failure msgW none none dataW [] [] ffrOk "a.html"
  have H3 := template_ops_atomic_on_failure msgW none none dataW [] [] ffrOk "e.txt"
  have H4 := template_ops_atomic_on_failure msgW none none dataW [] [] ffrOk "e.html"
  exact ⟨H.1 rfl, H.2.1 rfl, H.2.2.1 rfl, H.2.2.2.1 rfl, H.2.2.2.2.1 rfl,
    H2.2.2.2.2.2.1 rfl, H3.2.2.2.2.2.2.1 rfl, H4.2.2.2.2.2.2.2 rfl⟩

/-- C2: for the nil template handle, each of the eight public operations
fails carrying the TemplateMissing error (errTplPointerNil) — bare for the
four body operations, reachable through the context wrap for the
attach and embed operations — and performs zero engine Execute
invocations. -/
theorem nil_template_fails_missing_no_engine (m : Msg) (d : Data)
    (popts : List PartOption) (fopts : List FileOption) (ffr : FileFromReader)
    (nm : String) :
    m.SetBodyTextTemplate none d popts =
      { msg := m, err := some (GoError.new errTplPointerNil), engineCalls := 0 } ∧
    m.SetBodyHTMLTemplate none d popts =
      { msg := m, err := some (GoError.new errTplPointerNil), engineCalls := 0 } ∧
    m.AddAlternativeTextTemplate none d popts =
      { msg := m, err := some (GoError.new errTplPointerNil), engineCalls := 0 } ∧
    m.AddAlternativeHTMLTemplate none d popts =
      { msg := m, err := some (GoError.new errTplPointerNil), engineCalls := 0 } ∧
    m.AttachTextTemplate ffr nm none d fopts =
      { msg := m,
        err := some (GoError.wrap "failed to attach template" (GoError.new errTplPointerNil)),
        engineCalls := 0 } ∧
    m.AttachHTMLTemplate ffr nm none d fopts =
      { msg := m,
        err := some (GoError.wrap "failed to attach template" (GoError.new errTplPointerNil)),
        engineCalls := 0 } ∧
    m.EmbedTextTemplate ffr nm none d fopts =
      { msg := m,
        err := some (GoError.wrap "failed to embed template" (GoError.new errTplPointerNil)),
        engineCalls := 0 } ∧
    m.EmbedHTMLTemplate ffr nm none d fopts =
      { msg := m,
        err := some (GoError.wrap "failed to embed template" (GoError.new errTplPointerNil)),
        engineCalls := 0 } ∧
    errorsIs (GoError.wrap "failed to attach template" (GoError.new errTplPointerNil))
      (GoError.new errTplPointerNil) = true ∧
    errorsIs (GoError.wrap "failed to embed template" (GoError.new errTplPointerNil))
      (GoError.new errTplPointerNil) = true :=
  ⟨rfl, rfl, rfl, rfl, rfl, rfl, rfl, rfl,
    errorsIs_wrap _ _, errorsIs_wrap _ _⟩

theorem string_empty_append (s : String) : "" ++ s = s := rfl

/-- C3: content-type selection is fixed by which operation was invoked: on
every successful call the Text body operations install the part built under
text/plain and the HTML body operations the part built under text/html, as
customized by the caller's options, never inferred from the content. -/
theorem content_type_fixed_by_operation (m : Msg) (t : TextTemplate)
    (th : HTMLTemplate) (d : Data) (opts : List PartOption) (tbuf hbuf : String)
    (hT : t.Execute d = .ok tbuf) (hH : th.Execute d = .ok hbuf) :
    (m.SetBodyTextTemplate (some t) d opts).msg.body =
      some (applyPartOptions opts
        { contentType := TypeTextPlain, writer := writeFuncFromBuffer tbuf }) ∧
    (m.SetBodyHTMLTemplate (some th) d opts).msg.body =
      some (applyPartOptions opts
        { contentType := TypeTextHTML, writer := writeFuncFromBuffer hbuf }) ∧
    (m.AddAlternativeTextTemplate (some t) d opts).msg.alternatives =
      m.alternatives ++ [applyPartOptions opts
        { contentType := TypeTextPlain, writer := writeFuncFromBuffer tbuf }] ∧
    (m.AddAlternativeHTMLTemplate (some th) d opts).msg.alternatives =
      m.alternatives ++ [applyPartOptions opts
        { contentType := TypeTextHTML, writer := writeFuncFromBuffer hbuf }] := by
  simp [Msg.SetBodyTextTemplate, Msg.SetBodyHTMLTemplate,
    Msg.AddAlternativeTextTemplate, Msg.AddAlternativeHTMLTemplate,
    Msg.SetBodyWriter, Msg.AddAlternativeWriter, hT, hH]

/-- Witness for C3 at concrete templates with output "ok". -/
theorem content_type_fixed_by_operation_witness :
    (msgW.SetBodyTextTemplate (some tplOkT) dataW []).msg.body =
      some { contentType := TypeTextPlain, writer := writeFuncFromBuffer "ok" } ∧
    (msgW.SetBodyHTMLTemplate (some tplOkH) dataW []).msg.body =
      some { contentType := TypeTextHTML, writer := writeFuncFromBuffer "ok" } := by
  have H := content_type_fixed_by_operation msgW tplOkT tplOkH dataW [] "ok" "ok" rfl rfl
  exact ⟨H.1, H.2.1⟩

/-- C4: the HTML-named operations render through the Escaping engine variant
and the Text-named operations through the Raw variant: for a template that
interpolates one data field, the Text operations install or hand over the
raw field value while the HTML operations install or hand over its
htmlEscape, so markup-significant characters are sanitized exactly on the
HTML side. -/
theorem html_ops_escape_text_ops_raw (m : Msg) (d : Data) (fname v nm : String)
    (popts : List PartOption) (ffr : FileFromReader)
    (hv : d.lookup fname = some v) :
    (m.SetBodyTextTemplate
        (some (TextTemplate.ofElems [TplElem.field fname])) d popts).msg.body =
      some (applyPartOptions popts
        { contentType := TypeTextPlain, writer := writeFuncFromBuffer v }) ∧
    (m.SetBodyHTMLTemplate
        (some (HTMLTemplate.ofElems [TplElem.field fname])) d popts).msg.body =
      some (applyPartOptions popts
        { contentType := TypeTextHTML, writer := writeFuncFromBuffer (htmlEscape v) }) ∧
    (m.AddAlternativeTextTemplate
        (some (TextTemplate.ofElems [TplElem.field fname])) d popts).msg.alternatives =
      m.alternatives ++ [applyPartOptions popts
        { contentType := TypeTextPlain, writer := writeFuncFromBuffer v }] ∧
    (m.AddAlternativeHTMLTemplate
        (some (HTMLTemplate.ofElems [TplElem.field fname])) d popts).msg.alternatives =
      m.alternatives ++ [applyPartOptions popts
        { contentType := TypeTextHTML, writer := writeFuncFromBuffer (htmlEscape v) }] ∧
    fileFromTextTemplate ffr nm
        (some (TextTemplate.ofElems [TplElem.field fname])) d =
      { res := ffr nm v, engineCalls := 1 } ∧
    fileFromHTMLTemplate ffr nm
        (some (HTMLTemplate.ofElems [TplElem.field fname])) d =
      { res := ffr nm (htmlEscape v), engineCalls := 1 } := by
  simp [Msg.SetBodyTextTemplate, Msg.SetBodyHTMLTemplate,
    Msg.AddAlternativeTextTemplate, Msg.AddAlternativeHTMLTemplate,
    fileFromTextTemplate, fileFromHTMLTemplate,
    TextTemplate.ofElems, HTMLTemplate.ofElems, renderTextFrom, renderHTMLFrom,
    hv, Msg.SetBodyWriter, Msg.AddAlternativeWriter, string_empty_append]

/-- Witness for C4 at the markup-significant data value: the Text body keeps
the script tag raw while the HTML body holds its escaped form. -/
theorem html_ops_escape_text_ops_raw_witness :
    (msgW.SetBodyTextTemplate
        (some (TextTemplate.ofElems [TplElem.field "X"])) dataW []).msg.body =
      some { contentType := TypeTextPlain, writer := writeFuncFromBuffer "<script>" } ∧
    (msgW.SetBodyHTMLTemplate
        (some (HTMLTemplate.ofElems [TplElem.field "X"])) dataW []).msg.body =
      some { contentType := TypeTextHTML,
             writer := writeFuncFromBuffer "&lt;script&gt;" } := by
  have H := html_ops_escape_text_ops_raw msgW dataW "X" "<script>" "a" [] ffrOk rfl
  exact ⟨H.1, H.2.1⟩

/-- C5: the attach and embed operations wrap every failure of the
file-building helpers with a context note identifying the target (attach vs.
embed) and leave the underlying failure untouched as the cause, so the
original failure stays reachable through the wrap chain (errors.Is and
errors.Unwrap). -/
theorem attach_embed_wrap_preserves_cause (m : Msg) (ffr : FileFromReader)
    (nm : String) (tplT : Option TextTemplate) (tplH : Option HTMLTemplate)
    (d : Data) (fopts : List FileOption) (e1 e2 : GoError) (k1 k2 : Nat)
    (hT : fileFromTextTemplate ffr nm tplT d = { res := .error e1, engineCalls := k1 })
    (hH : fileFromHTMLTemplate ffr nm tplH d = { res := .error e2, engineCalls := k2 }) :
    (m.AttachTextTemplate ffr nm tplT d fopts =
      { msg := m, err := some (GoError.wrap "failed to attach template" e1),
        engineCalls := k1 } ∧
     errorsIs (GoError.wrap "failed to attach template" e1) e1 = true ∧
     GoError.unwrap (GoError.wrap "failed to attach template" e1) = some e1) ∧
    (m.AttachHTMLTemplate ffr nm tplH d fopts =
      { msg := m, err := some (GoError.wrap "failed to attach template" e2),
        engineCalls := k2 } ∧
     errorsIs (GoError.wrap "failed to attach template" e2) e2 = true) ∧
    (m.EmbedTextTemplate ffr nm tplT d fopts =
      { msg := m, err := some (GoError.wrap "failed to embed template" e1),
        engineCalls := k1 } ∧
     errorsIs (GoError.wrap "failed to embed template" e1) e1 = true) ∧
    (m.EmbedHTMLTemplate ffr nm tplH d fopts =
      { msg := m, err := some (GoError.wrap "failed to embed template" e2),
        engineCalls := k2 } ∧
     errorsIs (GoError.wrap "failed to embed template" e2) e2 = true) := by
  refine ⟨⟨?_, errorsIs_wrap _ _, rfl⟩, ⟨?_, errorsIs_wrap _ _⟩,
    ⟨?_, errorsIs_wrap _ _⟩, ⟨?_, errorsIs_wrap _ _⟩⟩ <;>
    simp [Msg.AttachTextTemplate, Msg.AttachHTMLTemplate,
      Msg.EmbedTextTemplate, Msg.EmbedHTMLTemplate, hT, hH]

/-- Witness for C5 at the nil template, whose TemplateMissing failure is
wrapped yet reachable. -/
theorem attach_embed_wrap_preserves_cause_witness :
    (msgW.AttachTextTemplate ffrOk "a" none dataW []).err =
      some (GoError.wrap "failed to attach template" (GoError.new errTplPointerNil)) ∧
    errorsIs (GoError.wrap "failed to embed template" (GoError.new errTplPointerNil))
      (GoError.new errTplPointerNil) = true := by
  have H := attach_embed_wrap_preserves_cause msgW ffrOk "a" none none dataW []
    (GoError.new errTplPointerNil) (GoError.new errTplPointerNil) 0 0 rfl rfl
  exact ⟨congrArg OpResult.err H.1.1, H.2.2.1.2⟩

/-- C6: the Content Producer built from a rendered buffer is idempotent:
invoked on two separate sinks it appends exactly the buffer's bytes both
times (byte-identical output, equal to the buffer at wrap time) and reports
the buffer's length, and a successful set-body call installs precisely this
producer over the rendered buffer. -/
theorem content_producer_idempotent (b s1 s2 : String) (m : Msg)
    (t : TextTemplate) (d : Data) (buf : String) (hT : t.Execute d = .ok buf) :
    writeFuncFromBuffer b s1 = (s1 ++ b, b.length) ∧
    writeFuncFromBuffer b s2 = (s2 ++ b, b.length) ∧
    (m.SetBodyTextTemplate (some t) d []).msg.body =
      some { contentType := TypeTextPlain, writer := writeFuncFromBuffer buf } := by
  refine ⟨rfl, rfl, ?_⟩
  simp [Msg.SetBodyTextTemplate, hT, Msg.SetBodyWriter, applyPartOptions]

/-- Witness for C6: two invocations on distinct sinks, and the installed
producer of a concrete successful render. -/
theorem content_producer_idempotent_witness :
    writeFuncFromBuffer "payload" "" = ("payload", 7) ∧
    writeFuncFromBuffer "payload" "sink" = ("sinkpayload", 7) ∧
    (msgW.SetBodyTextTemplate (some tplOkT) dataW []).msg.body =
      some { contentType := TypeTextPlain, writer := writeFuncFromBuffer "ok" } := by
  have H := content_producer_idempotent "payload" "" "sink" msgW tplOkT dataW "ok" rfl
  exact ⟨H.1, H.2.1, H.2.2⟩

/-- C7: last write wins for the primary body: when two successive set-body
calls both render successfully, the message ends with exactly the second
render's content in the single primary body slot, for every combination of
the two set-body operations, and no body part is duplicated into the
alternative, attachment or embed collections. -/
theorem set_body_last_write_wins (m : Msg) (t1 t2 : TextTemplate)
    (h1 h2 : HTMLTemplate) (d1 d2 : Data) (o1 o2 : List PartOption)
    (b1 b2 c1 c2 : String)
    (hT1 : t1.Execute d1 = .ok b1) (hT2 : t2.Execute d2 = .ok b2)
    (hH1 : h1.Execute d1 = .ok c1) (hH2 : h2.Execute d2 = .ok c2) :
    ((m.SetBodyTextTemplate (some t1) d1 o1).msg.SetBodyTextTemplate
        (some t2) d2 o2).msg.body =
      some (applyPartOptions o2
        { contentType := TypeTextPlain, writer := writeFuncFromBuffer b2 }) ∧
    ((m.SetBodyTextTemplate (some t1) d1 o1).msg.SetBodyHTMLTemplate
        (some h2) d2 o2).msg.body =
      some (applyPartOptions o2
        { contentType := TypeTextHTML, writer := writeFuncFromBuffer c2 }) ∧
    ((m.SetBodyHTMLTemplate (some h1) d1 o1).msg.SetBodyTextTemplate
        (some t2) d2 o2).msg.body =
      some (applyPartOptions o2
        { contentType := TypeTextPlain, writer := writeFuncFromBuffer b2 }) ∧
    ((m.SetBodyHTMLTemplate (some h1) d1 o1).msg.SetBodyHTMLTemplate
        (some h2) d2 o2).msg.body =
      some (applyPartOptions o2
        { contentType := TypeTextHTML, writer := writeFuncFromBuffer c2 }) ∧
    ((m.SetBodyTextTemplate (some t1) d1 o1).msg.SetBodyTextTemplate
        (some t2) d2 o2).msg.alternatives = m.alternatives ∧
    ((m.SetBodyTextTemplate (some t1) d1 o1).msg.SetBodyTextTemplate
        (some t2) d2 o2).msg.attachments = m.attachments ∧
    ((m.SetBodyTextTemplate (some t1) d1 o1).msg.SetBodyTextTemplate
        (some t2) d2 o2).msg.embeds = m.embeds := by
  simp [Msg.SetBodyTextTemplate, Msg.SetBodyHTMLTemplate, hT1, hT2, hH1, hH2,
    Msg.SetBodyWriter]

/-- Witness for C7: two successive set-body calls with different templates
leave exactly the second output in the body slot. -/
theorem set_body_last_write_wins_witness :
    ((msgW.SetBodyTextTemplate (some tplOkT) dataW []).msg.SetBodyTextTemplate
        (some tplOk2T) dataW []).msg.body =
      some { contentType := TypeTextPlain, writer := writeFuncFromBuffer "second" } ∧
    ((msgW.SetBodyTextTemplate (some tplOkT) dataW []).msg.SetBodyHTMLTemplate
        (some tplOkH) dataW []).msg.body =
      some { contentType := TypeTextHTML, writer := writeFuncFromBuffer "ok" } := by
  have H := set_body_last_write_wins msgW tplOkT tplOk2T tplOkH tplOkH dataW dataW
    [] [] "ok" "second" "ok" "ok" rfl rfl rfl rfl
  exact ⟨H.1, H.2.1⟩

/-- C8: rendering the text template "Hello {{.Name}}" with data mapping Name
to World through SetBodyTextTemplate succeeds, installs a primary body under
text/plain, and the installed producer writes exactly the bytes
"Hello World". -/
theorem hello_world_scenario :
    helloResult.err = none ∧
    helloResult.msg.body =
      some { contentType := TypeTextPlain, writer := writeFuncFromBuffer "Hello World" } ∧
    (helloResult.msg.body.map fun p => (p.writer "").1) = some "Hello World" ∧
    (helloResult.msg.body.map fun p => p.contentType) = some TypeTextPlain :=
  ⟨rfl, rfl, rfl, rfl⟩

/-- C9: on every successful call the attach operations append exactly one
File (the built file, as customized by the caller's options) at the tail of
the attachment sequence and leave the embeds, primary body and alternatives
unchanged; the embed operations symmetrically append one File at the tail of
the embed sequence and leave the attachments, primary body and alternatives
unchanged. -/
theorem attach_embed_frame (m : Msg) (ffr : FileFromReader) (nm : String)
    (tplT : Option TextTemplate) (tplH : Option HTMLTemplate) (d : Data)
    (fopts : List FileOption) (fT fH : File) (k1 k2 : Nat)
    (hT : fileFromTextTemplate ffr nm tplT d = { res := .ok fT, engineCalls := k1 })
    (hH : fileFromHTMLTemplate ffr nm tplH d = { res := .ok fH, engineCalls := k2 }) :
    ((m.AttachTextTemplate ffr nm tplT d fopts).err = none ∧
     (m.AttachTextTemplate ffr nm tplT d fopts).msg.attachments =
       m.attachments ++ [applyFileOptions fopts fT] ∧
     (m.AttachTextTemplate ffr nm tplT d fopts).msg.embeds = m.embeds ∧
     (m.AttachTextTemplate ffr nm tplT d fopts).msg.body = m.body ∧
     (m.AttachTextTemplate ffr nm tplT d fopts).msg.alternatives = m.alternatives) ∧
    ((m.AttachHTMLTemplate ffr nm tplH d fopts).err = none ∧
     (m.AttachHTMLTemplate ffr nm tplH d fopts).msg.attachments =
       m.attachments ++ [applyFileOptions fopts fH] ∧
     (m.AttachHTMLTemplate ffr nm tplH d fopts).msg.embeds = m.embeds ∧
     (m.AttachHTMLTemplate ffr nm tplH d fopts).msg.body = m.body ∧
     (m.AttachHTMLTemplate ffr nm tplH d fopts).msg.alternatives = m.alternatives) ∧
    ((m.EmbedTextTemplate ffr nm tplT d fopts).err = none ∧
     (m.EmbedTextTemplate ffr nm tplT d fopts).msg.embeds =
       m.embeds ++ [applyFileOptions fopts fT] ∧
     (m.EmbedTextTemplate ffr nm tplT d fopts).msg.attachments = m.attachments ∧
     (m.EmbedTextTemplate ffr nm tplT d fopts).msg.body = m.body ∧
     (m.EmbedTextTemplate ffr nm tplT d fopts).msg.alternatives = m.alternatives) ∧
    ((m.EmbedHTMLTemplate ffr nm tplH d fopts).err = none ∧
     (m.EmbedHTMLTemplate ffr nm tplH d fopts).msg.embeds =
       m.embeds ++ [applyFileOptions fopts fH] ∧
     (m.EmbedHTMLTemplate ffr nm tplH d fopts).msg.attachments = m.attachments ∧
     (m.EmbedHTMLTemplate ffr nm tplH d fopts).msg.body = m.body ∧
     (m.EmbedHTMLTemplate ffr nm tplH d fopts).msg.alternatives = m.alternatives) := by
  simp [Msg.AttachTextTemplate, Msg.AttachHTMLTemplate, Msg.EmbedTextTemplate,
    Msg.EmbedHTMLTemplate, hT, hH, appendFile]

/-- Witness for C9 at concrete successful renders. -/
theorem attach_embed_frame_witness :
    (msgW.AttachTextTemplate ffrOk "a" (some tplOkT) dataW []).msg.attachments =
      msgW.attachments ++
        [{ name := "a", contentType := "application/octet-stream",
           writer := writeFuncFromBuffer "ok" }] ∧
    (msgW.EmbedHTMLTemplate ffrOk "e" (some tplOkH) dataW []).msg.embeds =
      msgW.embeds ++
        [{ name := "e", contentType := "application/octet-stream",
           writer := writeFuncFromBuffer "ok" }] := by
  have H1 := attach_embed_frame msgW ffrOk "a" (some tplOkT) (some tplOkH) dataW []
    ⟨"a", "application/octet-stream", writeFuncFromBuffer "ok"⟩
    ⟨"a", "application/octet-stream", writeFuncFromBuffer "ok"⟩ 1 1 rfl rfl
  have H2 := attach_embed_frame msgW ffrOk "e" (some tplOkT) (some tplOkH) dataW []
    ⟨"e", "application/octet-stream", writeFuncFromBuffer "ok"⟩
    ⟨"e", "application/octet-stream", writeFuncFromBuffer "ok"⟩ 1 1 rfl rfl
  exact ⟨H1.1.2.1, H2.2.2.2.2.1⟩

/-- C10: after a successful render the four body operations cannot fail: they
return nil for every input whose Execute succeeds.  The attach and embed
operations have a further failure point after a successful render, in the
file-construction step, exhibited here by a file-construction capability that
rejects the content after the engine was invoked once and succeeded. -/
theorem body_ops_no_failure_after_render (m : Msg) (t : TextTemplate)
    (th : HTMLTemplate) (d : Data) (opts : List PartOption) (bt bh : String)
    (hT : t.Execute d = .ok bt) (hH : th.Execute d = .ok bh) :
    (m.SetBodyTextTemplate (some t) d opts).err = none ∧
    (m.SetBodyHTMLTemplate (some th) d opts).err = none ∧
    (m.AddAlternativeTextTemplate (some t) d opts).err = none ∧
    (m.AddAlternativeHTMLTemplate (some th) d opts).err = none ∧
    (tplOkT.Execute dataW = .ok "ok" ∧
     (msgW.AttachTextTemplate ffrFail "a" (some tplOkT) dataW []).err =
       some (GoError.wrap "failed to attach template"
         (GoError.new "file construction failed")) ∧
     (msgW.AttachTextTemplate ffrFail "a" (some tplOkT) dataW []).engineCalls = 1) ∧
    (tplOkH.Execute dataW = .ok "ok" ∧
     (msgW.EmbedHTMLTemplate ffrFail "e" (some tplOkH) dataW []).err =
       some (GoError.wrap "failed to embed template"
         (GoError.new "file construction failed")) ∧
     (msgW.EmbedHTMLTemplate ffrFail "e" (some tplOkH) dataW []).engineCalls = 1) := by
  refine ⟨?_, ?_, ?_, ?_, ⟨rfl, rfl, rfl⟩, ⟨rfl, rfl, rfl⟩⟩ <;>
    simp [Msg.SetBodyTextTemplate, Msg.SetBodyHTMLTemplate,
      Msg.AddAlternativeTextTemplate, Msg.AddAlternativeHTMLTemplate, hT, hH]

/-- Witness for C10 at concrete successful renders. -/
theorem body_ops_no_failure_after_render_witness :
    (msgW.SetBodyTextTemplate (some tplOkT) dataW []).err = none ∧
    (msgW.AddAlternativeHTMLTemplate (some tplOkH) dataW []).err = none := by
  have H := body_ops_no_failure_after_render msgW tplOkT tplOkH dataW [] "ok" "ok" rfl rfl
  exact ⟨H.1, H.2.2.2.1⟩

end GoMail
